import Mathlib

/-!
# SafeStreet damage-reports screen

A shallow embedding of `frontend/src/assets/damage_reports.jsx`:

* the two document renderers (`generatePDF`, and the renderer inside
  `viewReport`) as functions building a `Doc`, a record of the `jsPDF` calls;
* the React component `DamageReports` as an explicit state record (the five
  hooks `reports`, `loading`, `acceptingReport`, `notification`, `timerRef`)
  together with the browser facilities the component uses: the timer table of
  `setTimeout` / `clearTimeout`, the pending `FileReader` loads, the HTTP
  requests in flight, a millisecond clock, and a trace of the observable
  calls (`alert`, `console`, `axios`, `doc.output`, `doc.save`, ...);
* every handler as a state transformer; an `await` splits a handler in the part
  before the suspension and the part that runs when the promise settles.

A hook holds the value its setter was last called with; what the operator can
click is the screen as React last rendered it (`shown`), and a re-render is
an event of its own, so a handler may run against a screen that is older
than the hooks.  A synchronous block of handler code takes no time on the
model clock.  What the libraries compute (the locale date format, the line
breaking of `splitTextToSize`) is a parameter `Lib`.
-/

namespace DamageReports

/-! ## Data model -/

/-- Line 8: `const BACKEND_URL`. -/
def BACKEND_URL : String := "http://localhost:8000"

/-- A report record as the list endpoint returns it. -/
structure Report where
  _id : String
  location : String
  summary : String
  status : String
  date : String
  imageUrl : Option String
deriving DecidableEq, Repr

/-- Library behaviour the source relies on and does not define:
`new Date(d).toLocaleDateString()` and `doc.splitTextToSize(text, width)`
(which depends on the font size current in the document). -/
structure Lib where
  toLocaleDateString : String → String
  splitTextToSize : Nat → String → Nat → List String

/-- One `doc.text(...)` call: the lines drawn (a string argument is one line,
an array argument is its lines), the position, and the font size in force. -/
structure TextOp where
  lines : List String
  x : Nat
  y : Nat
  fontSize : Nat
deriving DecidableEq, Repr

/-- A `jsPDF` document: the current font size and the text drawn so far. -/
structure Doc where
  fontSize : Nat
  ops : List TextOp
deriving DecidableEq, Repr

/-- Constructor `new jsPDF()`; the library starts with font size 16. -/
def Doc.new : Doc := { fontSize := 16, ops := [] }

/-- Method `doc.setFontSize(n)`. -/
def Doc.setFontSize (doc : Doc) (n : Nat) : Doc := { doc with fontSize := n }

/-- Method `doc.text(string, x, y)`. -/
def Doc.text (doc : Doc) (s : String) (x y : Nat) : Doc :=
  { doc with ops := doc.ops ++ [{ lines := [s], x := x, y := y, fontSize := doc.fontSize }] }

/-- Method `doc.text(string[], x, y)`. -/
def Doc.textLines (doc : Doc) (ls : List String) (x y : Nat) : Doc :=
  { doc with ops := doc.ops ++ [{ lines := ls, x := x, y := y, fontSize := doc.fontSize }] }

/-- Method `doc.splitTextToSize(text, width)`. -/
def Doc.splitTextToSize (lib : Lib) (doc : Doc) (text : String) (width : Nat) : List String :=
  lib.splitTextToSize doc.fontSize text width

/-- A file handed to the browser by `doc.save(name)`. -/
structure SavedFile where
  filename : String
  doc : Doc
deriving DecidableEq, Repr

/-! ## `generatePDF` (lines 10-26) -/

/-- Lines 10-26: draw the report and save it; the result is the saved file. -/
def generatePDF (lib : Lib) (report : Report) : SavedFile :=
  let doc := Doc.new
  let doc := doc.setFontSize 16
  let doc := doc.text "SafeStreet Damage Report Summary" 20 20
  let doc := doc.setFontSize 12
  let doc := doc.text ("Location: " ++ report.location) 20 40
  let doc := doc.text ("Summary: " ++ report.summary) 20 50
  let doc := doc.text ("Status: " ++ report.status) 20 60
  let doc := doc.text ("Date: " ++ lib.toLocaleDateString report.date) 20 70
  let summaryText := "This report highlights damage at " ++ report.location ++ ". Summary: "
    ++ report.summary ++ ". Status: " ++ report.status ++ "."
  let doc := doc.text "Details:" 20 90
  let doc := doc.textLines (doc.splitTextToSize lib summaryText 170) 20 100
  { filename := "Damage_Report_" ++ report._id ++ ".pdf", doc := doc }

/-! ## Component state -/

/-- A rejected promise of `axios`: no response at all, or a status outside 2xx. -/
inductive JsError where
  | network (message : String)
  | badStatus (code : Nat)
deriving DecidableEq, Repr

/-- The observable calls of the component, in the order they are made. -/
inductive Effect where
  | alert (message : String)
  | output (doc : Doc)
  | readAsDataURL (blob : Doc)
  | httpGet (url : String)
  | httpPost (url : String) (report : Report) (pdfBase64 : Option String)
  | consoleLog (message : String)
  | consoleError (message : String)
  | setNotification (text : String)
  | save (file : SavedFile)
deriving DecidableEq, Repr

/-- The two closures the component passes to `setTimeout`: the one of
`acceptReport` (lines 49-52), which captures the report, and the one of
`viewReport` (lines 107-110). -/
inductive TimerCallback where
  | acceptTimeout (report : Report)
  | clearNotification
deriving DecidableEq, Repr

/-- An entry of the browser's timer table. -/
structure Timer where
  id : Nat
  due : Nat
  callback : TimerCallback
deriving DecidableEq, Repr

/-- What the closure `reader.onloadend` of one `viewReport` call captures. -/
structure ViewTask where
  report : Report
  doc : Doc
deriving DecidableEq, Repr

/-- What the JSX of lines 126-197 read from the hooks when the component was
last rendered: whether the table is there, its rows, and the pending report
that disables the buttons and places the Cancel button. -/
structure Screen where
  reports : List Report
  loading : Bool
  acceptingReport : Option Report
deriving DecidableEq, Repr

/-- The hooks of `DamageReports` (lines 29-33), the screen last rendered from
them, and the browser state around them. `timerRef = none` is `null`; timer
ids are positive and never reused. -/
structure State where
  reports : List Report
  loading : Bool
  acceptingReport : Option Report
  shown : Screen
  notification : String
  timerRef : Option Nat
  now : Nat
  nextTimerId : Nat
  timers : List Timer
  readers : List ViewTask
  posts : List ViewTask
  fetches : Nat
  trace : List Effect
deriving DecidableEq, Repr

/-- Lines 29-33: the initial values of the hooks, the first render, nothing scheduled. -/
def State.init : State :=
  { reports := [], loading := false, acceptingReport := none,
    shown := { reports := [], loading := false, acceptingReport := none }, notification := "",
    timerRef := none, now := 0, nextTimerId := 1, timers := [], readers := [],
    posts := [], fetches := 0, trace := [] }

/-- Record one observable call. -/
def State.emit (s : State) (e : Effect) : State := { s with trace := s.trace ++ [e] }

/-- Browser `setTimeout(callback, delay)`: a fresh handle, due `delay` ms from now. -/
def setTimeout (s : State) (callback : TimerCallback) (delay : Nat) : State × Nat :=
  ({ s with timers := s.timers ++ [{ id := s.nextTimerId, due := s.now + delay, callback := callback }],
            nextTimerId := s.nextTimerId + 1 },
   s.nextTimerId)

/-- Browser `clearTimeout(handle)`: drops the timer with that handle, if any;
`null` and unknown handles are ignored. -/
def clearTimeout (s : State) (handle : Option Nat) : State :=
  match handle with
  | none => s
  | some id => { s with timers := s.timers.filter (fun t => t.id != id) }

/-- Hook setter `setNotification`; the call is recorded in the trace. -/
def setNotification (s : State) (text : String) : State :=
  { s with notification := text, trace := s.trace ++ [Effect.setNotification text] }

/-- The result of running a block of statements: the state reached, and the
exception thrown out of the block, if any. -/
structure Completion where
  state : State
  thrown : Option JsError
deriving DecidableEq, Repr

/-- Statement `try body catch (error) handler`. -/
def tryCatch (body : Completion) (handler : State → JsError → Completion) : Completion :=
  match body.thrown with
  | none => body
  | some error => handler body.state error

/-- Statement `try body finally finalizer`. -/
def tryFinally (body : Completion) (finalizer : State → State) : Completion :=
  { state := finalizer body.state, thrown := body.thrown }

/-- Expression `await promise` at the head of a block: the continuation runs on
the value, a rejection is thrown. -/
def await {α : Type} (s : State) (settled : Except JsError α) (k : α → Completion) : Completion :=
  match settled with
  | .ok v => k v
  | .error e => { state := s, thrown := some e }

/-! ## Handlers -/

/-- Lines 35-38, up to the `await`: raise the loading flag and issue the request. -/
def fetchReports (s : State) : State :=
  let s := { s with loading := true }
  let s := s.emit (.httpGet (BACKEND_URL ++ "/api/reports"))
  { s with fetches := s.fetches + 1 }

/-- Lines 38-44, from the `await` on: runs when the list request settles. -/
def fetchReportsSettled (s : State) (settled : Except JsError (List Report)) : Completion :=
  let s := { s with fetches := s.fetches - 1 }
  tryFinally
    (tryCatch
      (await s settled fun data => { state := { s with reports := data }, thrown := none })
      (fun s _error => { state := s.emit (.consoleError "Failed to fetch reports:"), thrown := none }))
    (fun s => { s with loading := false })

/-- Lines 60-84: the synchronous part of `viewReport`; it ends with the read of
the blob started and `reader.onloadend` installed. -/
def viewReport (lib : Lib) (s : State) (report : Report) : State :=
  let s := s.emit (.alert ("Viewing report ID: " ++ report._id))
  let doc := Doc.new
  let doc := doc.setFontSize 16
  let doc := doc.text "SafeStreet Damage Report Summary" 20 20
  let doc := doc.setFontSize 12
  let doc := doc.text ("Location: " ++ report.location) 20 40
  let doc := doc.text ("Summary: " ++ report.summary) 20 50
  let doc := doc.text ("Status: " ++ report.status) 20 60
  let doc := doc.text ("Date: " ++ lib.toLocaleDateString report.date) 20 70
  let summaryText := "This report highlights damage at " ++ report.location ++ ". Summary: "
    ++ report.summary ++ ". Status: " ++ report.status ++ "."
  let doc := doc.text "Details:" 20 90
  let doc := doc.textLines (doc.splitTextToSize lib summaryText 170) 20 100
  let s := s.emit (.output doc)
  let s := s.emit (.readAsDataURL doc)
  { s with readers := s.readers ++ [{ report := report, doc := doc }] }

/-- Line 86: `reader.result.split(",")[1]`, `none` being `undefined`. -/
def base64data (result : String) : Option String := (result.splitOn ",").get? 1

/-- Lines 85-93, up to the `await`: `reader.onloadend` of the task, called with
the data URL the reader produced; it posts the report and the encoded document
as one JSON object (the comment of line 82 speaks of form data; none is built). -/
def onloadend (s : State) (task : ViewTask) (result : String) : State :=
  let s := s.emit (.httpPost (BACKEND_URL ++ "/api/send-report-email") task.report (base64data result))
  { s with posts := s.posts ++ [task] }

/-- Lines 88-110, from the `await` on: runs when the email request settles. -/
def emailSettled (s : State) (task : ViewTask) (settled : Except JsError String) : Completion :=
  let c := tryCatch
    (await s settled fun data =>
      let s := s.emit (.consoleLog ("Email send response: " ++ data))
      let s := setNotification s "Mail has been sent"
      { state := s.emit (.consoleLog "Notification set to Mail has been sent"), thrown := none })
    (fun s _error =>
      let s := s.emit (.consoleError "Failed to send report email:")
      let s := setNotification s "Failed to send mail"
      { state := s.emit (.consoleLog "Notification set to Failed to send mail"), thrown := none })
  match c.thrown with
  | some e => { state := c.state, thrown := some e }
  | none =>
    let s := c.state.emit (.save { filename := "Damage_Report_" ++ task.report._id ++ ".pdf", doc := task.doc })
    { state := (setTimeout s .clearNotification 5000).1, thrown := none }

/-- Lines 47-53. -/
def acceptReport (s : State) (report : Report) : State :=
  let s := { s with acceptingReport := some report }
  let scheduled := setTimeout s (.acceptTimeout report) 5000
  { scheduled.1 with timerRef := some scheduled.2 }

/-- Lines 55-58. -/
def cancelAccept (s : State) : State :=
  let s := clearTimeout s s.timerRef
  { s with acceptingReport := none }

/-- Lines 114-117. -/
def rejectReport (s : State) (report : Report) : State :=
  s.emit (.alert ("Rejected report ID: " ++ report._id))

/-- The body of a timer callback: lines 50-51, and lines 108-109. -/
def runCallback (lib : Lib) (s : State) : TimerCallback → State
  | .acceptTimeout report =>
    let s := viewReport lib s report
    { s with acceptingReport := none }
  | .clearNotification =>
    let s := { s with notification := "" }
    s.emit (.consoleLog "Notification cleared")

/-- The browser runs the timer with this handle: possible once it is due; the
entry leaves the table and its callback runs. `none` when it cannot fire. -/
def fireTimer (lib : Lib) (s : State) (id : Nat) : Option State :=
  match s.timers.find? (fun t => t.id == id) with
  | none => none
  | some t =>
    if t.due ≤ s.now then
      some (runCallback lib { s with timers := s.timers.filter (fun t => t.id != id) } t.callback)
    else none

/-- Time passes. -/
def advance (s : State) (ms : Nat) : State := { s with now := s.now + ms }

/-- Lines 119-120: the effect body run on mount. -/
def mount : State := fetchReports State.init

/-- Lines 121-123: the effect cleanup run on teardown; a handle is truthy
when it is neither `null` nor 0. -/
def cleanup (s : State) : State :=
  match s.timerRef with
  | none => s
  | some id => if id = 0 then s else clearTimeout s (some id)

/-! ## The rendered screen (lines 126-197) -/

/-- React renders the component again: the screen is rebuilt from the hooks. -/
def rerender (s : State) : State :=
  { s with shown := { reports := s.reports, loading := s.loading,
                      acceptingReport := s.acceptingReport } }

/-- Line 161-167: the Accept button of a row of the screen last rendered. The
table is there when that render saw `loading` false, the button is disabled
when that render saw a pending report (line 164); the handler itself,
`acceptReport`, checks nothing. -/
def clickAccept (s : State) (row : Nat) : State :=
  if s.shown.loading then s else
  match s.shown.reports.get? row with
  | none => s
  | some report => if s.shown.acceptingReport.isSome then s else acceptReport s report

/-- Lines 168-175: the Reject button of the row, disabled like Accept. -/
def clickReject (s : State) (row : Nat) : State :=
  if s.shown.loading then s else
  match s.shown.reports.get? row with
  | none => s
  | some report => if s.shown.acceptingReport.isSome then s else rejectReport s report

/-- Lines 176-181: the Cancel button, present in the rows whose `_id` was that
of the pending report when the screen was rendered. -/
def clickCancel (s : State) (row : Nat) : State :=
  if s.shown.loading then s else
  match s.shown.reports.get? row, s.shown.acceptingReport with
  | some report, some pending => if pending._id = report._id then cancelAccept s else s
  | _, _ => s

/-- What can happen to a mounted component: the operator's clicks on the
screen last rendered, a re-render, and the browser's events (time, timers,
reader loads, settled requests). -/
inductive Event where
  | clickAccept (row : Nat)
  | clickReject (row : Nat)
  | clickCancel (row : Nat)
  | rerender
  | advance (ms : Nat)
  | timerFires (id : Nat)
  | readerLoaded (k : Nat) (result : String)
  | emailSettled (k : Nat) (settled : Except JsError String)
  | fetchSettled (settled : Except JsError (List Report))

/-- Events other than the operator's clicks. -/
def Event.isBrowser : Event → Bool
  | .clickAccept _ | .clickReject _ | .clickCancel _ => false
  | _ => true

/-- One event; an event that is not possible in the state changes nothing. -/
def step (lib : Lib) (s : State) : Event → State
  | .clickAccept row => clickAccept s row
  | .clickReject row => clickReject s row
  | .clickCancel row => clickCancel s row
  | .rerender => rerender s
  | .advance ms => advance s ms
  | .timerFires id => (fireTimer lib s id).getD s
  | .readerLoaded k result =>
    match s.readers.get? k with
    | none => s
    | some task => onloadend { s with readers := s.readers.eraseIdx k } task result
  | .emailSettled k settled =>
    match s.posts.get? k with
    | none => s
    | some task => (emailSettled { s with posts := s.posts.eraseIdx k } task settled).state
  | .fetchSettled settled =>
    if s.fetches = 0 then s else (fetchReportsSettled s settled).state

/-- A sequence of events, from left to right. -/
def run (lib : Lib) (s : State) (events : List Event) : State := events.foldl (step lib) s

/-! ## Predicates on states and traces -/

/-- The timer was set by `acceptReport`. -/
def Timer.isAccept (t : Timer) : Bool :=
  match t.callback with
  | .acceptTimeout _ => true
  | .clearNotification => false

/-- The accept timers in the table. -/
def State.acceptTimers (s : State) : List Timer := s.timers.filter Timer.isAccept

/-- Controller state Idle: no report pending, no accept timer scheduled. -/
def State.Idle (s : State) : Prop := s.acceptingReport = none ∧ s.acceptTimers = []

/-- Handles in the table are pairwise distinct, positive and already issued,
and the next handle is positive. -/
def State.WF (s : State) : Prop :=
  (s.timers.map Timer.id).Nodup ∧ (∀ t ∈ s.timers, 0 < t.id ∧ t.id < s.nextTimerId) ∧
    0 < s.nextTimerId

/-- The call hands on a rendered document (`doc.output`, line 80); every call of
`viewReport` makes exactly one, and nothing else does. -/
def Effect.isRender : Effect → Bool
  | .output _ => true
  | _ => false

/-- The call is an email POST. -/
def Effect.isPost : Effect → Bool
  | .httpPost _ _ _ => true
  | _ => false

/-- The call is a local file save. -/
def Effect.isSave : Effect → Bool
  | .save _ => true
  | _ => false

/-- The call sets the notification text. -/
def Effect.isNotify : Effect → Bool
  | .setNotification _ => true
  | _ => false

/-- One view cycle run to its end: `viewReport`, then after `d1` ms the reader
has loaded the blob as the data URL `result`, then after `d2` ms the email
request has settled. -/
def viewCycle (lib : Lib) (s : State) (report : Report) (d1 : Nat) (result : String) (d2 : Nat)
    (settled : Except JsError String) : State :=
  let s := viewReport lib s report
  let s := advance s d1
  let s := step lib s (.readerLoaded (s.readers.length - 1) result)
  let s := advance s d2
  step lib s (.emailSettled (s.posts.length - 1) settled)

/-! ## Sample data -/

/-- A library instance for the examples: dates print as they are stored, and
the paragraph is not broken. -/
def sampleLib : Lib :=
  { toLocaleDateString := fun d => d, splitTextToSize := fun _ text _ => [text] }

/-- The report of the scenario in the specification. -/
def mainSt : Report :=
  { _id := "1", location := "Main St", summary := "Pothole", status := "pending",
    date := "2024-01-01", imageUrl := none }

/-- A second report. -/
def oakAve : Report :=
  { _id := "2", location := "Oak Ave", summary := "Crack", status := "pending",
    date := "2024-02-01", imageUrl := some "uploads/oak.png" }

/-- The first report under another identifier and with an image. -/
def mainStCopy : Report :=
  { _id := "7", location := "Main St", summary := "Pothole", status := "pending",
    date := "2024-01-01", imageUrl := some "http://example.org/a.png" }

/-- The screen once the list request has returned the two reports and the
table has been rendered. -/
def loaded : State := run sampleLib mount [.fetchSettled (.ok [mainSt, oakAve]), .rerender]

/-- The first report at a later date. -/
def mainStLater : Report :=
  { _id := "1", location := "Main St", summary := "Pothole", status := "pending",
    date := "2025-06-30", imageUrl := none }

/-! ## The timer table -/

/-- A handle not yet issued finds the entry just appended. -/
theorem find?_append_fresh (l : List Timer) (t : Timer) (h : ∀ u ∈ l, u.id < t.id) :
    (l ++ [t]).find? (fun u => u.id == t.id) = some t := by
  induction l with
  | nil => simp
  | cons a l ih =>
    have ha : a.id < t.id := h a (List.mem_cons_self a l)
    have hne : (a.id == t.id) = false := by simpa using Nat.ne_of_lt ha
    simp only [List.cons_append, List.find?_cons, hne]
    exact ih (fun u hu => h u (List.mem_cons_of_mem a hu))

/-- Clearing a handle not yet issued before the append drops the new entry only. -/
theorem filter_append_fresh (l : List Timer) (t : Timer) (h : ∀ u ∈ l, u.id < t.id) :
    (l ++ [t]).filter (fun u => u.id != t.id) = l := by
  induction l with
  | nil => simp
  | cons a l ih =>
    have ha : a.id < t.id := h a (List.mem_cons_self a l)
    have hne : (a.id != t.id) = true := by simpa using Nat.ne_of_lt ha
    simp only [List.cons_append, List.filter_cons, hne, if_true]
    rw [ih (fun u hu => h u (List.mem_cons_of_mem a hu))]

/-! ## The document renderers -/

/-- C7: the text drawn is a function of location, summary, status and date
alone. Two reports that agree on these four fields (whatever their `_id` and
`imageUrl`) get the same document from `generatePDF`, and in every state the
document `viewReport` renders for the one is the document `generatePDF` draws
for the other: same lines, positions and font sizes, in the same order. -/
theorem rendered_document_depends_on_fields_only (lib : Lib) (r1 r2 : Report) (s : State)
    (hl : r1.location = r2.location) (hs : r1.summary = r2.summary)
    (ht : r1.status = r2.status) (hd : r1.date = r2.date) :
    (generatePDF lib r1).doc = (generatePDF lib r2).doc ∧
    (viewReport lib s r1).trace = s.trace ++
      [.alert ("Viewing report ID: " ++ r1._id), .output (generatePDF lib r2).doc,
       .readAsDataURL (generatePDF lib r2).doc] ∧
    (viewReport lib s r1).readers = s.readers ++ [{ report := r1, doc := (generatePDF lib r2).doc }] := by
  simp [generatePDF, viewReport, State.emit, hl, hs, ht, hd]

/-- Witness for C7: two reports that differ in `_id` and `imageUrl` only. -/
theorem rendered_document_depends_on_fields_only_witness :
    mainSt._id ≠ mainStCopy._id ∧ mainSt.imageUrl ≠ mainStCopy.imageUrl ∧
    (generatePDF sampleLib mainSt).doc = (generatePDF sampleLib mainStCopy).doc ∧
    (viewReport sampleLib State.init mainSt).trace = State.init.trace ++
      [.alert ("Viewing report ID: " ++ mainSt._id), .output (generatePDF sampleLib mainStCopy).doc,
       .readAsDataURL (generatePDF sampleLib mainStCopy).doc] ∧
    (viewReport sampleLib State.init mainSt).readers = State.init.readers ++
      [{ report := mainSt, doc := (generatePDF sampleLib mainStCopy).doc }] :=
  ⟨by decide, by decide,
   rendered_document_depends_on_fields_only sampleLib mainSt mainStCopy State.init rfl rfl rfl rfl⟩

/-- C8, as stated, fails: the paragraph carries no date. Two reports that
differ in their date only get different Date lines and the very same
paragraph, from both renderers. -/
theorem paragraph_ignores_date :
    (generatePDF sampleLib mainSt).doc.ops.get? 4 ≠ (generatePDF sampleLib mainStLater).doc.ops.get? 4 ∧
    (generatePDF sampleLib mainSt).doc.ops.get? 6 = (generatePDF sampleLib mainStLater).doc.ops.get? 6 ∧
    (generatePDF sampleLib mainSt).doc.ops.get? 6 = some
      { lines := ["This report highlights damage at Main St. Summary: Pothole. Status: pending."],
        x := 20, y := 100, fontSize := 12 } ∧
    ((viewReport sampleLib State.init mainSt).readers.map fun t => t.doc.ops.get? 6)
      = ((viewReport sampleLib State.init mainStLater).readers.map fun t => t.doc.ops.get? 6) := by
  decide

/-- C8, amended: both renderers lay out the same seven text calls, all at
x = 20: the title at y = 20 in size 16, then in size 12 the lines Location,
Summary, Status and formatted Date at y = 40, 50, 60, 70, the heading
"Details:" at y = 90, and at y = 100 the paragraph, split to width 170, that
is built from location, summary and status. -/
theorem renderers_lay_out_fixed_document (lib : Lib) (r : Report) (s : State) :
    (generatePDF lib r).doc.ops =
      [{ lines := ["SafeStreet Damage Report Summary"], x := 20, y := 20, fontSize := 16 },
       { lines := ["Location: " ++ r.location], x := 20, y := 40, fontSize := 12 },
       { lines := ["Summary: " ++ r.summary], x := 20, y := 50, fontSize := 12 },
       { lines := ["Status: " ++ r.status], x := 20, y := 60, fontSize := 12 },
       { lines := ["Date: " ++ lib.toLocaleDateString r.date], x := 20, y := 70, fontSize := 12 },
       { lines := ["Details:"], x := 20, y := 90, fontSize := 12 },
       { lines := lib.splitTextToSize 12
           ("This report highlights damage at " ++ r.location ++ ". Summary: " ++ r.summary
             ++ ". Status: " ++ r.status ++ ".") 170,
         x := 20, y := 100, fontSize := 12 }] ∧
    (viewReport lib s r).readers = s.readers ++ [{ report := r, doc := (generatePDF lib r).doc }] ∧
    (viewReport lib s r).trace = s.trace ++
      [.alert ("Viewing report ID: " ++ r._id), .output (generatePDF lib r).doc,
       .readAsDataURL (generatePDF lib r).doc] := by
  simp [generatePDF, viewReport, State.emit, Doc.new, Doc.setFontSize, Doc.text, Doc.textLines,
    Doc.splitTextToSize]

/-! ## The report list loader -/

/-- C10: `fetchReports` raises the loading flag when it issues the request, no
other event changes the flag while the request is in flight, and whatever the
outcome the flag is down once the request has settled and nothing is thrown.
On success the list is the response data; on failure it is unchanged, hence
still empty when the fetch on mount fails. -/
theorem fetchReports_loading_and_result (lib : Lib) (s : State) (data : List Report) (e : JsError)
    (settled : Except JsError (List Report)) (ev : Event) :
    (fetchReports s).loading = true ∧
    (match ev with
     | .fetchSettled _ => True
     | _ => (step lib s ev).loading = s.loading) ∧
    (fetchReportsSettled (fetchReports s) settled).thrown = none ∧
    (fetchReportsSettled (fetchReports s) settled).state.loading = false ∧
    (fetchReportsSettled (fetchReports s) (.ok data)).state.reports = data ∧
    (fetchReportsSettled (fetchReports s) (.error e)).state.reports = s.reports ∧
    (fetchReportsSettled mount (.error e)).state.reports = [] ∧
    (step lib mount (.fetchSettled (.error e))).reports = [] ∧
    (step lib mount (.fetchSettled (.ok data))).reports = data := by
  refine ⟨rfl, ?_, ?_, ?_, rfl, rfl, rfl, rfl, rfl⟩
  · cases ev with
    | clickAccept row =>
      simp only [step, clickAccept]
      repeat (first | rfl | split)
    | clickReject row =>
      simp only [step, clickReject]
      repeat (first | rfl | split)
    | clickCancel row =>
      simp only [step, clickCancel, cancelAccept, clearTimeout]
      repeat (first | rfl | split)
    | rerender => rfl
    | advance ms => rfl
    | timerFires id =>
      simp only [step, fireTimer]
      split <;> try rfl
      split_ifs <;> try rfl
      rename_i t _ _
      cases t.callback <;> rfl
    | readerLoaded k result =>
      simp only [step]
      split <;> rfl
    | emailSettled k settled =>
      simp only [step]
      split <;> try rfl
      cases settled <;> rfl
    | fetchSettled settled => trivial
  · cases settled <;> rfl
  · cases settled <;> rfl

/-! ## One view cycle -/

/-- The calls of a view cycle whose email request succeeds. -/
theorem viewCycle_trace_ok (lib : Lib) (s : State) (r : Report) (d1 d2 : Nat) (result data : String) :
    (viewCycle lib s r d1 result d2 (.ok data)).trace = s.trace ++
      [.alert ("Viewing report ID: " ++ r._id),
       .output (generatePDF lib r).doc,
       .readAsDataURL (generatePDF lib r).doc,
       .httpPost (BACKEND_URL ++ "/api/send-report-email") r (base64data result),
       .consoleLog ("Email send response: " ++ data),
       .setNotification "Mail has been sent",
       .consoleLog "Notification set to Mail has been sent",
       .save { filename := "Damage_Report_" ++ r._id ++ ".pdf", doc := (generatePDF lib r).doc }] := by
  simp [viewCycle, step, viewReport, advance, State.emit, onloadend, emailSettled, tryCatch, await,
    setNotification, setTimeout, generatePDF]

/-- The calls of a view cycle whose email request fails. -/
theorem viewCycle_trace_error (lib : Lib) (s : State) (r : Report) (d1 d2 : Nat) (result : String)
    (e : JsError) :
    (viewCycle lib s r d1 result d2 (.error e)).trace = s.trace ++
      [.alert ("Viewing report ID: " ++ r._id),
       .output (generatePDF lib r).doc,
       .readAsDataURL (generatePDF lib r).doc,
       .httpPost (BACKEND_URL ++ "/api/send-report-email") r (base64data result),
       .consoleError "Failed to send report email:",
       .setNotification "Failed to send mail",
       .consoleLog "Notification set to Failed to send mail",
       .save { filename := "Damage_Report_" ++ r._id ++ ".pdf", doc := (generatePDF lib r).doc }] := by
  simp [viewCycle, step, viewReport, advance, State.emit, onloadend, emailSettled, tryCatch, await,
    setNotification, setTimeout, generatePDF]

/-- The timer table and the clock after a view cycle. -/
theorem viewCycle_timers (lib : Lib) (s : State) (r : Report) (d1 d2 : Nat) (result : String)
    (settled : Except JsError String) :
    (viewCycle lib s r d1 result d2 settled).timers = s.timers ++
      [{ id := s.nextTimerId, due := s.now + d1 + d2 + 5000, callback := .clearNotification }] ∧
    (viewCycle lib s r d1 result d2 settled).now = s.now + d1 + d2 := by
  cases settled <;>
  simp [viewCycle, step, viewReport, advance, State.emit, onloadend, emailSettled, tryCatch, await,
    setNotification, setTimeout]

/-- The notification text after a view cycle. -/
theorem viewCycle_notification (lib : Lib) (s : State) (r : Report) (d1 d2 : Nat) (result : String)
    (settled : Except JsError String) :
    (viewCycle lib s r d1 result d2 settled).notification =
      match settled with
      | .ok _ => "Mail has been sent"
      | .error _ => "Failed to send mail" := by
  cases settled <;>
  simp [viewCycle, step, viewReport, advance, State.emit, onloadend, emailSettled, tryCatch, await,
    setNotification, setTimeout]

/-- The email block never throws: every rejection is caught. -/
theorem emailSettled_thrown (s : State) (task : ViewTask) (settled : Except JsError String) :
    (emailSettled s task settled).thrown = none := by
  cases settled <;> rfl

/-- C4: after a view cycle the notification is "Mail has been sent" exactly
when the email request succeeded, and "Failed to send mail" for every
failure; it is the one text the cycle sets. In both cases the cycle leaves a
timer due exactly 5000 ms after the moment the text was set: it cannot fire
earlier, and when it fires the notification is the empty string. The block
that awaits the email call throws nothing. -/
theorem notification_follows_email_outcome (lib : Lib) (s : State) (r : Report) (d1 d2 : Nat)
    (result : String) (settled : Except JsError String) (e : JsError) (task : ViewTask)
    (hwf : s.WF) :
    ((viewCycle lib s r d1 result d2 settled).notification = "Mail has been sent"
      ↔ ∃ data, settled = .ok data) ∧
    (viewCycle lib s r d1 result d2 (.error e)).notification = "Failed to send mail" ∧
    (viewCycle lib s r d1 result d2 settled).trace.filter Effect.isNotify =
      s.trace.filter Effect.isNotify ++
        [.setNotification (viewCycle lib s r d1 result d2 settled).notification] ∧
    (viewCycle lib s r d1 result d2 settled).timers = s.timers ++
      [{ id := s.nextTimerId, due := (viewCycle lib s r d1 result d2 settled).now + 5000,
         callback := .clearNotification }] ∧
    (∀ ms, ms < 5000 →
      fireTimer lib (advance (viewCycle lib s r d1 result d2 settled) ms) s.nextTimerId = none) ∧
    (∀ ms, 5000 ≤ ms →
      (fireTimer lib (advance (viewCycle lib s r d1 result d2 settled) ms) s.nextTimerId).map
        State.notification = some "") ∧
    (emailSettled s task settled).thrown = none := by
  have htim := viewCycle_timers lib s r d1 d2 result settled
  have hfind : (viewCycle lib s r d1 result d2 settled).timers.find?
      (fun u => u.id == s.nextTimerId) =
      some { id := s.nextTimerId, due := s.now + d1 + d2 + 5000, callback := .clearNotification } := by
    rw [htim.1]
    exact find?_append_fresh s.timers
      { id := s.nextTimerId, due := s.now + d1 + d2 + 5000, callback := .clearNotification }
      (fun u hu => (hwf.2.1 u hu).2)
  refine ⟨?_, ?_, ?_, ?_, ?_, ?_, emailSettled_thrown s task settled⟩
  · rw [viewCycle_notification]
    cases settled with
    | ok data => simp
    | error err => simp
  · rw [viewCycle_notification]
  · cases settled with
    | ok data =>
      rw [viewCycle_trace_ok, viewCycle_notification]
      simp [Effect.isNotify]
    | error err =>
      rw [viewCycle_trace_error, viewCycle_notification]
      simp [Effect.isNotify]
  · rw [htim.1, htim.2]
  · intro ms hms
    simp only [fireTimer, advance, hfind, htim.2]
    rw [if_neg (by omega)]
  · intro ms hms
    simp only [fireTimer, advance, hfind, htim.2]
    rw [if_pos (by omega)]
    rfl

/-- Witness for C4: the cycle of the sample report started in the initial state. -/
theorem notification_follows_email_outcome_witness :
    State.init.WF ∧
    (viewCycle sampleLib State.init mainSt 10 "data:application/pdf;base64,JVBERi0=" 200
      (.error (.badStatus 500))).notification = "Failed to send mail" :=
  ⟨⟨by decide, by decide, by decide⟩,
   (notification_follows_email_outcome sampleLib State.init mainSt 10 200
      "data:application/pdf;base64,JVBERi0=" (.error (.badStatus 500)) (.badStatus 500)
      { report := mainSt, doc := Doc.new } ⟨by decide, by decide, by decide⟩).2.1⟩

/-- C5: whatever the outcome of the email call, one view cycle makes exactly
one `doc.save` call, of the document it rendered, under the name
"Damage_Report_" followed by the `_id` of the report followed by ".pdf". -/
theorem viewCycle_saves_once (lib : Lib) (s : State) (r : Report) (d1 d2 : Nat) (result : String)
    (settled : Except JsError String) :
    (viewCycle lib s r d1 result d2 settled).trace.filter Effect.isSave =
      s.trace.filter Effect.isSave ++
        [.save { filename := "Damage_Report_" ++ r._id ++ ".pdf", doc := (generatePDF lib r).doc }] := by
  cases settled with
  | ok data => rw [viewCycle_trace_ok]; simp [Effect.isSave]
  | error err => rw [viewCycle_trace_error]; simp [Effect.isSave]

/-- C6, as stated, fails: the notification is set before the file is saved.
In the calls of a cycle, counted from 0, the notification is set at place 5
and the save is at place 7, for a successful and for a failed email call. -/
theorem notification_set_precedes_save :
    (viewCycle sampleLib State.init mainSt 0 "data:application/pdf;base64,JVBERi0=" 0
      (.ok "sent")).trace.findIdx Effect.isNotify = 5 ∧
    (viewCycle sampleLib State.init mainSt 0 "data:application/pdf;base64,JVBERi0=" 0
      (.ok "sent")).trace.findIdx Effect.isSave = 7 ∧
    (viewCycle sampleLib State.init mainSt 0 "data:application/pdf;base64,JVBERi0=" 0
      (.error (.network "Network Error"))).trace.findIdx Effect.isNotify = 5 ∧
    (viewCycle sampleLib State.init mainSt 0 "data:application/pdf;base64,JVBERi0=" 0
      (.error (.network "Network Error"))).trace.findIdx Effect.isSave = 7 := by
  decide

/-- C6, amended: for both outcomes of the email call the calls of one view
cycle are, in this order: the alert, the rendered document handed on
(`doc.output`), its encoding (`readAsDataURL`), the POST to the email
endpoint, the notification set (between two console lines), the file save.
The timer that clears the notification is due exactly 5000 ms after the
moment the notification was set. -/
theorem viewCycle_effects_in_order (lib : Lib) (s : State) (r : Report) (d1 d2 : Nat)
    (result data : String) (e : JsError) (settled : Except JsError String) :
    (viewCycle lib s r d1 result d2 (.ok data)).trace = s.trace ++
      [.alert ("Viewing report ID: " ++ r._id),
       .output (generatePDF lib r).doc,
       .readAsDataURL (generatePDF lib r).doc,
       .httpPost (BACKEND_URL ++ "/api/send-report-email") r (base64data result),
       .consoleLog ("Email send response: " ++ data),
       .setNotification "Mail has been sent",
       .consoleLog "Notification set to Mail has been sent",
       .save { filename := "Damage_Report_" ++ r._id ++ ".pdf", doc := (generatePDF lib r).doc }] ∧
    (viewCycle lib s r d1 result d2 (.error e)).trace = s.trace ++
      [.alert ("Viewing report ID: " ++ r._id),
       .output (generatePDF lib r).doc,
       .readAsDataURL (generatePDF lib r).doc,
       .httpPost (BACKEND_URL ++ "/api/send-report-email") r (base64data result),
       .consoleError "Failed to send report email:",
       .setNotification "Failed to send mail",
       .consoleLog "Notification set to Failed to send mail",
       .save { filename := "Damage_Report_" ++ r._id ++ ".pdf", doc := (generatePDF lib r).doc }] ∧
    (viewCycle lib s r d1 result d2 settled).timers = s.timers ++
      [{ id := s.nextTimerId, due := (viewCycle lib s r d1 result d2 settled).now + 5000,
         callback := .clearNotification }] := by
  refine ⟨viewCycle_trace_ok lib s r d1 d2 result data, viewCycle_trace_error lib s r d1 d2 result e, ?_⟩
  rw [(viewCycle_timers lib s r d1 d2 result settled).1, (viewCycle_timers lib s r d1 d2 result settled).2]

/-! ## The accept timer -/

/-- A handle not yet issued is not in the table. -/
theorem find?_fresh (l : List Timer) (n : Nat) (h : ∀ u ∈ l, u.id < n) :
    l.find? (fun u => u.id == n) = none := by
  rw [List.find?_eq_none]
  intro u hu
  simpa using Nat.ne_of_lt (h u hu)

/-- The state `acceptReport` leaves. -/
theorem acceptReport_eq (s : State) (r : Report) :
    acceptReport s r =
      { s with acceptingReport := some r, timerRef := some s.nextTimerId,
               nextTimerId := s.nextTimerId + 1,
               timers := s.timers ++
                 [{ id := s.nextTimerId, due := s.now + 5000, callback := .acceptTimeout r }] } := by
  rfl

/-- After `acceptReport` the timer it set fires once 5000 ms have passed, and
the callback views the report and clears the pending report. -/
theorem acceptReport_fire (lib : Lib) (s : State) (r : Report) (ms : Nat) (hwf : s.WF)
    (hms : 5000 ≤ ms) :
    fireTimer lib (advance (acceptReport s r) ms) s.nextTimerId =
      some { viewReport lib
               { s with acceptingReport := some r, timerRef := some s.nextTimerId,
                        nextTimerId := s.nextTimerId + 1, now := s.now + ms } r
             with acceptingReport := none } := by
  have hfind := find?_append_fresh s.timers
    { id := s.nextTimerId, due := s.now + 5000, callback := .acceptTimeout r }
    (fun u hu => (hwf.2.1 u hu).2)
  have hfilter := filter_append_fresh s.timers
    { id := s.nextTimerId, due := s.now + 5000, callback := .acceptTimeout r }
    (fun u hu => (hwf.2.1 u hu).2)
  simp only at hfind hfilter
  simp only [fireTimer, advance, acceptReport_eq, hfind, hfilter]
  rw [if_pos (by omega)]
  rfl

/-- After `acceptReport` the timer it set cannot fire before 5000 ms have passed. -/
theorem acceptReport_not_due (lib : Lib) (s : State) (r : Report) (ms : Nat) (hwf : s.WF)
    (hms : ms < 5000) :
    fireTimer lib (advance (acceptReport s r) ms) s.nextTimerId = none := by
  have hfind := find?_append_fresh s.timers
    { id := s.nextTimerId, due := s.now + 5000, callback := .acceptTimeout r }
    (fun u hu => (hwf.2.1 u hu).2)
  simp only at hfind
  simp only [fireTimer, advance, acceptReport_eq, hfind]
  rw [if_neg (by omega)]

/-- The accept timers after `acceptReport`. -/
theorem acceptReport_acceptTimers (s : State) (r : Report) :
    (acceptReport s r).acceptTimers = s.acceptTimers ++
      [{ id := s.nextTimerId, due := s.now + 5000, callback := .acceptTimeout r }] := by
  simp [acceptReport_eq, State.acceptTimers, Timer.isAccept]

/-- A browser event in a state without accept timers leaves it without accept
timers and hands on no rendered document. -/
theorem step_browser_no_accept (lib : Lib) (s : State) (ev : Event) (hb : ev.isBrowser = true)
    (hno : s.acceptTimers = []) :
    (step lib s ev).acceptTimers = [] ∧
    (step lib s ev).trace.filter Effect.isRender = s.trace.filter Effect.isRender := by
  cases ev with
  | clickAccept row => simp [Event.isBrowser] at hb
  | clickReject row => simp [Event.isBrowser] at hb
  | clickCancel row => simp [Event.isBrowser] at hb
  | rerender => exact ⟨hno, rfl⟩
  | advance ms => exact ⟨hno, rfl⟩
  | timerFires id =>
    simp only [step, fireTimer]
    split
    · exact ⟨hno, rfl⟩
    · rename_i t hfind
      split_ifs
      · have hmem : t ∈ s.timers := List.mem_of_find?_eq_some hfind
        have hcb : t.callback = .clearNotification := by
          cases hc : t.callback with
          | clearNotification => rfl
          | acceptTimeout r =>
            have : t ∈ s.acceptTimers := by
              simp [State.acceptTimers, List.mem_filter, hmem, Timer.isAccept, hc]
            rw [hno] at this
            simp at this
        simp only [Option.getD_some, hcb, runCallback, State.emit, State.acceptTimers]
        constructor
        · rw [List.filter_comm]
          simp only [State.acceptTimers] at hno
          rw [hno]
          rfl
        · simp [Effect.isRender]
      · exact ⟨hno, rfl⟩
  | readerLoaded k result =>
    simp only [step]
    split
    · exact ⟨hno, rfl⟩
    · simp only [onloadend, State.emit, State.acceptTimers]
      exact ⟨hno, by simp [Effect.isRender]⟩
  | emailSettled k settled =>
    simp only [step]
    split
    · exact ⟨hno, rfl⟩
    · rename_i task _
      have htim : (emailSettled { s with posts := s.posts.eraseIdx k } task settled).state.timers =
          s.timers ++ [{ id := s.nextTimerId, due := s.now + 5000, callback := .clearNotification }] := by
        cases settled <;> rfl
      have htr : (emailSettled { s with posts := s.posts.eraseIdx k } task settled).state.trace.filter
          Effect.isRender = s.trace.filter Effect.isRender := by
        cases settled <;>
          simp [emailSettled, tryCatch, await, setNotification, setTimeout, State.emit,
            Effect.isRender]
      refine ⟨?_, htr⟩
      simp only [State.acceptTimers, htim, List.filter_append]
      rw [show s.timers.filter Timer.isAccept = [] from hno]
      rfl
  | fetchSettled settled =>
    simp only [step]
    split_ifs
    · exact ⟨hno, rfl⟩
    · cases settled <;> exact ⟨hno, by simp [fetchReportsSettled, tryFinally, tryCatch, await, State.emit, Effect.isRender]⟩

/-- Browser events alone, from a state without accept timers, never hand on a
rendered document: no view cycle starts. -/
theorem run_browser_no_accept (lib : Lib) (events : List Event) (s : State)
    (hno : s.acceptTimers = []) :
    (run lib s (events.filter Event.isBrowser)).acceptTimers = [] ∧
    (run lib s (events.filter Event.isBrowser)).trace.filter Effect.isRender =
      s.trace.filter Effect.isRender := by
  induction events generalizing s with
  | nil => exact ⟨hno, rfl⟩
  | cons ev events ih =>
    by_cases hb : ev.isBrowser = true
    · have hstep := step_browser_no_accept lib s ev hb hno
      have hrest := ih (step lib s ev) hstep.1
      simp only [List.filter_cons, hb, if_true, run, List.foldl_cons]
      simp only [run] at hrest
      exact ⟨hrest.1, hrest.2.trans hstep.2⟩
    · simp only [List.filter_cons, hb]
      exact ih s hno

/-- C1: from Idle, `acceptReport` followed by `cancelAccept` with no timer
fired in between (whatever time has passed) leaves the state as it was apart
from the clock and the handle bookkeeping: same reports, same notification,
same trace (no render, no POST, no save), same pending work, same timer
table. The controller is Idle again, the cancelled timer can never fire, and
no later browser event starts a view cycle. -/
theorem accept_then_cancel_is_void (lib : Lib) (s : State) (r : Report) (ms : Nat)
    (later : List Event) (hwf : s.WF) (hidle : s.Idle) :
    cancelAccept (advance (acceptReport s r) ms) =
      { s with timerRef := some s.nextTimerId, nextTimerId := s.nextTimerId + 1,
               now := s.now + ms } ∧
    (cancelAccept (advance (acceptReport s r) ms)).Idle ∧
    (cancelAccept (advance (acceptReport s r) ms)).reports = s.reports ∧
    (cancelAccept (advance (acceptReport s r) ms)).notification = s.notification ∧
    (cancelAccept (advance (acceptReport s r) ms)).trace = s.trace ∧
    (cancelAccept (advance (acceptReport s r) ms)).timers = s.timers ∧
    (∀ later_ms, fireTimer lib (advance (cancelAccept (advance (acceptReport s r) ms)) later_ms)
      s.nextTimerId = none) ∧
    (run lib (cancelAccept (advance (acceptReport s r) ms))
      (later.filter Event.isBrowser)).trace.filter Effect.isRender =
      s.trace.filter Effect.isRender := by
  have hfilter := filter_append_fresh s.timers
    { id := s.nextTimerId, due := s.now + 5000, callback := .acceptTimeout r }
    (fun u hu => (hwf.2.1 u hu).2)
  simp only at hfilter
  have heq : cancelAccept (advance (acceptReport s r) ms) =
      { s with timerRef := some s.nextTimerId, nextTimerId := s.nextTimerId + 1,
               now := s.now + ms } := by
    simp only [cancelAccept, advance, acceptReport_eq, clearTimeout, hfilter]
    rw [← hidle.1]
  have hno : (cancelAccept (advance (acceptReport s r) ms)).acceptTimers = [] := by
    rw [heq]
    exact hidle.2
  refine ⟨heq, ?_, ?_, ?_, ?_, ?_, ?_, ?_⟩
  · rw [heq]
    exact ⟨hidle.1, hidle.2⟩
  · rw [heq]
  · rw [heq]
  · rw [heq]
  · rw [heq]
  · intro later_ms
    rw [heq]
    simp only [fireTimer, advance, find?_fresh s.timers s.nextTimerId (fun u hu => (hwf.2.1 u hu).2)]
  · exact (run_browser_no_accept lib later _ hno).2.trans (by rw [heq])

/-- Witness for C1: accept and cancel of the sample report in the initial state. -/
theorem accept_then_cancel_is_void_witness :
    State.init.WF ∧ State.init.Idle ∧
    (cancelAccept (advance (acceptReport State.init mainSt) 4999)).Idle ∧
    (cancelAccept (advance (acceptReport State.init mainSt) 4999)).trace = [] :=
  ⟨⟨by decide, by decide, by decide⟩, ⟨rfl, rfl⟩,
   (accept_then_cancel_is_void sampleLib State.init mainSt 4999 []
      ⟨by decide, by decide, by decide⟩ ⟨rfl, rfl⟩).2.1,
   (accept_then_cancel_is_void sampleLib State.init mainSt 4999 []
      ⟨by decide, by decide, by decide⟩ ⟨rfl, rfl⟩).2.2.2.2.1⟩

/-- C2: from Idle, after `acceptReport r` the report is pending with one accept
timer, which cannot fire before 5000 ms have passed and fires from then on.
Its callback starts the view cycle of `r` and leaves the controller Idle at
once. Run to its end with either outcome of the email call, that cycle hands
on one rendered document, makes one POST, which carries `r`, and one save,
named after `r._id`; the controller is still Idle. -/
theorem accept_timeout_runs_one_cycle (lib : Lib) (s : State) (r : Report) (ms d1 d2 : Nat)
    (result : String) (settled : Except JsError String)
    (hwf : s.WF) (hidle : s.Idle) (hms : 5000 ≤ ms) :
    (acceptReport s r).acceptingReport = some r ∧
    (acceptReport s r).acceptTimers =
      [{ id := s.nextTimerId, due := s.now + 5000, callback := .acceptTimeout r }] ∧
    (∀ early, early < 5000 → fireTimer lib (advance (acceptReport s r) early) s.nextTimerId = none) ∧
    (fireTimer lib (advance (acceptReport s r) ms) s.nextTimerId).isSome = true ∧
    (run lib (acceptReport s r) [.advance ms, .timerFires s.nextTimerId]).Idle ∧
    (run lib (acceptReport s r) [.advance ms, .timerFires s.nextTimerId]).trace = s.trace ++
      [.alert ("Viewing report ID: " ++ r._id), .output (generatePDF lib r).doc,
       .readAsDataURL (generatePDF lib r).doc] ∧
    (run lib (acceptReport s r)
      [.advance ms, .timerFires s.nextTimerId, .advance d1, .readerLoaded s.readers.length result,
       .advance d2, .emailSettled s.posts.length settled]).Idle ∧
    (run lib (acceptReport s r)
      [.advance ms, .timerFires s.nextTimerId, .advance d1, .readerLoaded s.readers.length result,
       .advance d2, .emailSettled s.posts.length settled]).trace.filter Effect.isRender =
      s.trace.filter Effect.isRender ++ [.output (generatePDF lib r).doc] ∧
    (run lib (acceptReport s r)
      [.advance ms, .timerFires s.nextTimerId, .advance d1, .readerLoaded s.readers.length result,
       .advance d2, .emailSettled s.posts.length settled]).trace.filter Effect.isPost =
      s.trace.filter Effect.isPost ++
        [.httpPost (BACKEND_URL ++ "/api/send-report-email") r (base64data result)] ∧
    (run lib (acceptReport s r)
      [.advance ms, .timerFires s.nextTimerId, .advance d1, .readerLoaded s.readers.length result,
       .advance d2, .emailSettled s.posts.length settled]).trace.filter Effect.isSave =
      s.trace.filter Effect.isSave ++
        [.save { filename := "Damage_Report_" ++ r._id ++ ".pdf", doc := (generatePDF lib r).doc }] := by
  have hfire := acceptReport_fire lib s r ms hwf hms
  have hacc : s.timers.filter Timer.isAccept = [] := hidle.2
  have hfired : run lib (acceptReport s r) [.advance ms, .timerFires s.nextTimerId] =
      { viewReport lib
          { s with acceptingReport := some r, timerRef := some s.nextTimerId,
                   nextTimerId := s.nextTimerId + 1, now := s.now + ms } r
        with acceptingReport := none } := by
    simp only [run, List.foldl_cons, List.foldl_nil, step, hfire, Option.getD_some]
  have hsplit : run lib (acceptReport s r)
      [.advance ms, .timerFires s.nextTimerId, .advance d1, .readerLoaded s.readers.length result,
       .advance d2, .emailSettled s.posts.length settled] =
      run lib (run lib (acceptReport s r) [.advance ms, .timerFires s.nextTimerId])
        [.advance d1, .readerLoaded s.readers.length result, .advance d2,
         .emailSettled s.posts.length settled] := rfl
  rw [hsplit, hfired]
  refine ⟨rfl, ?_, ?_, ?_, ?_, ?_, ?_, ?_, ?_, ?_⟩
  · rw [acceptReport_acceptTimers, hidle.2]
    rfl
  · intro early hearly
    exact acceptReport_not_due lib s r early hwf hearly
  · rw [hfire]
    rfl
  · exact ⟨rfl, hacc⟩
  · simp [viewReport, State.emit, generatePDF]
  · constructor
    · cases settled <;>
        simp [run, step, viewReport, State.emit, advance, onloadend, emailSettled, tryCatch,
          await, setNotification, setTimeout]
    · cases settled <;>
        simp [run, step, viewReport, State.emit, advance, onloadend, emailSettled, tryCatch,
          await, setNotification, setTimeout, State.acceptTimers, List.filter_append, hacc,
          Timer.isAccept]
  · cases settled <;>
      simp [run, step, viewReport, State.emit, advance, onloadend, emailSettled, tryCatch,
        await, setNotification, setTimeout, generatePDF, Effect.isRender]
  · cases settled <;>
      simp [run, step, viewReport, State.emit, advance, onloadend, emailSettled, tryCatch,
        await, setNotification, setTimeout, generatePDF, Effect.isPost]
  · cases settled <;>
      simp [run, step, viewReport, State.emit, advance, onloadend, emailSettled, tryCatch,
        await, setNotification, setTimeout, generatePDF, Effect.isSave]

/-! ## The timer table stays well formed -/

/-- Well-formedness looks at the timer table and the next handle only. -/
theorem WF_same (s t : State) (hwf : s.WF) (ht : t.timers = s.timers)
    (hn : t.nextTimerId = s.nextTimerId) : t.WF := by
  unfold State.WF at *
  rw [ht, hn]
  exact hwf

/-- Dropping timers keeps the table well formed. -/
theorem WF_filter (s t : State) (p : Timer → Bool) (hwf : s.WF)
    (ht : t.timers = s.timers.filter p) (hn : t.nextTimerId = s.nextTimerId) : t.WF := by
  unfold State.WF at *
  rw [ht, hn]
  refine ⟨?_, ?_, hwf.2.2⟩
  · exact List.Nodup.sublist (List.Sublist.map Timer.id (List.filter_sublist s.timers)) hwf.1
  · intro u hu
    exact hwf.2.1 u (List.mem_of_mem_filter hu)

/-- Scheduling a timer under the next handle keeps the table well formed. -/
theorem WF_append (s t : State) (due : Nat) (cb : TimerCallback) (hwf : s.WF)
    (ht : t.timers = s.timers ++ [{ id := s.nextTimerId, due := due, callback := cb }])
    (hn : t.nextTimerId = s.nextTimerId + 1) : t.WF := by
  unfold State.WF at *
  rw [ht, hn]
  refine ⟨?_, ?_, Nat.succ_pos _⟩
  · rw [List.map_append, List.nodup_append]
    refine ⟨hwf.1, by simp, ?_⟩
    intro a ha hb
    simp only [List.map_cons, List.map_nil, List.mem_singleton] at hb
    obtain ⟨u, hu, rfl⟩ := List.mem_map.mp ha
    have := (hwf.2.1 u hu).2
    omega
  · intro u hu
    rcases List.mem_append.mp hu with h | h
    · have := hwf.2.1 u h
      exact ⟨this.1, by omega⟩
    · simp only [List.mem_singleton] at h
      subst h
      exact ⟨hwf.2.2, Nat.lt_succ_self _⟩

/-- The handler `cancelAccept` keeps the table well formed. -/
theorem cancelAccept_WF (s : State) (hwf : s.WF) : (cancelAccept s).WF := by
  cases href : s.timerRef with
  | none =>
    exact WF_same s _ hwf (by simp [cancelAccept, clearTimeout, href])
      (by simp [cancelAccept, clearTimeout, href])
  | some id =>
    exact WF_filter s _ (fun t => t.id != id) hwf (by simp [cancelAccept, clearTimeout, href])
      (by simp [cancelAccept, clearTimeout, href])

/-- A timer that fires leaves the table well formed. -/
theorem fireTimer_WF (lib : Lib) (s t : State) (id : Nat) (hwf : s.WF)
    (hfire : fireTimer lib s id = some t) : t.WF := by
  unfold fireTimer at hfire
  split at hfire
  · simp at hfire
  · rename_i u hfind
    split_ifs at hfire
    injection hfire with hfire
    subst hfire
    cases hcb : u.callback with
    | acceptTimeout r2 => exact WF_filter s _ (fun v => v.id != id) hwf rfl rfl
    | clearNotification => exact WF_filter s _ (fun v => v.id != id) hwf rfl rfl

/-- Every event, a click before the re-render included, keeps the timer table
well formed. -/
theorem step_WF (lib : Lib) (s : State) (ev : Event) (hwf : s.WF) : (step lib s ev).WF := by
  cases ev with
  | clickAccept row =>
    simp only [step, clickAccept]
    split_ifs with hl hp
    · exact hwf
    · split <;> exact hwf
    · split
      · exact hwf
      · exact WF_append s _ (s.now + 5000) (.acceptTimeout _) hwf rfl rfl
  | clickReject row =>
    simp only [step, clickReject]
    split_ifs with hl hp
    · exact hwf
    · split <;> exact hwf
    · split
      · exact hwf
      · exact WF_same s _ hwf rfl rfl
  | clickCancel row =>
    simp only [step, clickCancel]
    split_ifs with hl
    · exact hwf
    · split
      · split_ifs
        · exact cancelAccept_WF s hwf
        · exact hwf
      · exact hwf
  | rerender => exact WF_same s _ hwf rfl rfl
  | advance ms => exact WF_same s _ hwf rfl rfl
  | timerFires id =>
    simp only [step]
    cases hfire : fireTimer lib s id with
    | none => exact hwf
    | some t => exact fireTimer_WF lib s t id hwf hfire
  | readerLoaded k result =>
    simp only [step]
    split
    · exact hwf
    · exact WF_same s _ hwf rfl rfl
  | emailSettled k settled =>
    simp only [step]
    split
    · exact hwf
    · cases settled <;> exact WF_append s _ (s.now + 5000) .clearNotification hwf rfl rfl
  | fetchSettled settled =>
    simp only [step]
    split_ifs
    · exact hwf
    · cases settled <;> exact WF_same s _ hwf rfl rfl

/-- The timer table is well formed on mount and after every sequence of events. -/
theorem run_WF (lib : Lib) (events : List Event) : (run lib mount events).WF := by
  have hgen : ∀ (evs : List Event) (s : State), s.WF → (run lib s evs).WF := by
    intro evs
    induction evs with
    | nil => exact fun s h => h
    | cons ev evs ih => exact fun s h => ih (step lib s ev) (step_WF lib s ev h)
  exact hgen events mount ⟨by decide, by decide, by decide⟩

/-! ## Accepting while a report is pending, and teardown -/

/-- Witness for C2: accepting the sample report in the initial state and
letting the timer fire after exactly 5000 ms. -/
theorem accept_timeout_runs_one_cycle_witness :
    State.init.WF ∧ State.init.Idle ∧ 5000 ≤ 5000 ∧
    (run sampleLib (acceptReport State.init mainSt)
      [.advance 5000, .timerFires State.init.nextTimerId, .advance 30,
       .readerLoaded State.init.readers.length "data:application/pdf;base64,JVBERi0=",
       .advance 250, .emailSettled State.init.posts.length (.error (.network "Network Error"))]).Idle :=
  ⟨⟨by decide, by decide, by decide⟩, ⟨rfl, rfl⟩, Nat.le_refl 5000,
   (accept_timeout_runs_one_cycle sampleLib State.init mainSt 5000 30 250
      "data:application/pdf;base64,JVBERi0=" (.error (.network "Network Error"))
      ⟨by decide, by decide, by decide⟩ ⟨rfl, rfl⟩ (Nat.le_refl 5000)).2.2.2.2.2.2.1⟩

/-- C3, the code at the failing input: the list has loaded and the table is
rendered; Accept is clicked on the first row and, before React has rendered
again, on the second row. The button of the second row is still enabled, so
`acceptReport` runs a second time: the pending report becomes the second one,
two accept timers are scheduled, and when both fire each starts a view cycle,
one of them for the second report. With a re-render between the two clicks
the second click changes nothing. -/
theorem second_accept_click_before_rerender_takes_effect :
    (run sampleLib loaded [.clickAccept 0]).acceptingReport = some mainSt ∧
    (run sampleLib loaded [.clickAccept 0, .clickAccept 1]).acceptingReport = some oakAve ∧
    (run sampleLib loaded [.clickAccept 0, .clickAccept 1]).acceptTimers =
      [{ id := 1, due := 5000, callback := .acceptTimeout mainSt },
       { id := 2, due := 5000, callback := .acceptTimeout oakAve }] ∧
    (run sampleLib loaded
      [.clickAccept 0, .clickAccept 1, .rerender, .advance 5000, .timerFires 1,
       .timerFires 2]).trace.filter Effect.isRender =
      [.output (generatePDF sampleLib mainSt).doc, .output (generatePDF sampleLib oakAve).doc] ∧
    (run sampleLib loaded
      [.clickAccept 0, .clickAccept 1, .rerender, .advance 5000, .timerFires 1,
       .timerFires 2]).readers.map ViewTask.report = [mainSt, oakAve] ∧
    run sampleLib loaded [.clickAccept 0, .rerender, .clickAccept 1] =
      run sampleLib loaded [.clickAccept 0, .rerender] := by
  decide

/-- C9, the code at the failing input: after the two Accept clicks of C3 (no
re-render between them) `timerRef` holds the second handle, so the cleanup of
the teardown clears the second timer only. The timer of the first report stays
scheduled, and when it fires after the teardown a view cycle starts. After a
single Accept click the cleanup leaves no accept timer. -/
theorem cleanup_after_two_accept_clicks_leaves_timer :
    (run sampleLib loaded [.clickAccept 0, .clickAccept 1]).timerRef = some 2 ∧
    (cleanup (run sampleLib loaded [.clickAccept 0, .clickAccept 1])).acceptTimers =
      [{ id := 1, due := 5000, callback := .acceptTimeout mainSt }] ∧
    (cleanup (run sampleLib loaded [.clickAccept 0, .clickAccept 1])).trace.filter
      Effect.isRender = [] ∧
    (run sampleLib (cleanup (run sampleLib loaded [.clickAccept 0, .clickAccept 1]))
      [.advance 5000, .timerFires 1]).trace.filter Effect.isRender =
      [.output (generatePDF sampleLib mainSt).doc] ∧
    (cleanup (run sampleLib loaded [.clickAccept 0])).acceptTimers = [] := by
  decide

end DamageReports
